import Mathlib

/-!
A verification development for the scrypto-testenv harness: a shallow
embedding of src/src/environment.rs (environment caching, snapshot and
revive, instruction-label tracking, receipt adapter) and of the
hello_swap example contract, with theorems checking the design
documentation against the code.

The ledger simulator and the manifest builder primitives are external
collaborators of the harness; they are modelled as an explicit
capability record `SimOps`, threaded through the harness functions in
state-passing style, mirroring the way the Rust code consumes them
through an opaque API. Code that aborts on a missing key or an
unexpected commit class is modelled with `Except`.
-/

set_option autoImplicit false

namespace Testenv

/-- Addresses, public keys and compiled artifacts are opaque identifiers. -/
abbrev Addr := Nat

/-- A compiled package, that is a pair of bytecode and package definition,
kept opaque. -/
abbrev CompiledPackage := Nat

/-- Decimal is a signed fixed-point number with 18 decimal places,
modelled by its integer number of attos. -/
abbrev Decimal := Int

/-- Whole units converted to attos. -/
def dec (n : Int) : Decimal := n * 10 ^ 18

/-- MAX_SUPPLY = Decimal::from_attos(2 to the power 152), src/src/constants.rs. -/
def MAX_SUPPLY : Decimal := 2 ^ 152

def DIVISIBILITY_NONE : Nat := 0

def DIVISIBILITY_MAXIMUM : Nat := 18

/-- Slot 0 is reserved for the automatically prepended fee-lock operation. -/
def INSTRUCTION_COUNTER_INIT : Nat := 1

/-- First-match association-list lookup; models HashMap::get. -/
def lookupKV {K V : Type} [DecidableEq K] : List (K × V) → K → Option V
  | [], _ => none
  | (k, v) :: rest, key => if k = key then some v else lookupKV rest key

/-- HashMap::entry(key).or_insert(value), as used by write_cache in
src/src/environment.rs: an existing entry wins, otherwise insert. -/
def write_cache {K V : Type} [DecidableEq K] (cache : List (K × V)) (key : K) (value : V) :
    List (K × V) :=
  match lookupKV cache key with
  | some _ => cache
  | none => cache ++ [(key, value)]

/-- HashMap::entry(label).or_default().push(id), as used by new_instruction. -/
def pushLabel {K : Type} [DecidableEq K] : List (K × List Nat) → K → Nat → List (K × List Nat)
  | [], label, id => [(label, [id])]
  | (k, v) :: rest, label, id =>
      if k = label then (k, v ++ [id]) :: rest else (k, v) :: pushLabel rest label id

/-- HashMap::insert for a single key: overwrite in place or append. -/
def insertKV {K V : Type} [DecidableEq K] : List (K × V) → K → V → List (K × V)
  | [], k, v => [(k, v)]
  | (k0, v0) :: rest, k, v =>
      if k0 = k then (k0, v) :: rest else (k0, v0) :: insertKV rest k v

/-- HashMap::extend: later entries overwrite earlier ones. -/
def extendKV {K V : Type} [DecidableEq K] (m news : List (K × V)) : List (K × V) :=
  news.foldl (fun acc p => insertKV acc p.1 p.2) m

/-- BTreeSet::insert on paths: duplicate-free insertion. The sorted
order of the Rust key is not observed by any property below, so the set
is kept in first-insertion order. -/
def btreeInsert (x : String) (l : List String) : List String :=
  if x ∈ l then l else l ++ [x]

/-- The canonical package-location set: the values of the package map
collected into a BTreeSet (duplicate free). -/
def canonicalDirs (packages : List (String × String)) : List String :=
  packages.foldl (fun acc p => btreeInsert p.2 acc) []

/-- One manifest operation. The harness only counts and labels positions
and never inspects operation semantics, so foreign operations carry an
opaque tag. -/
inductive MInstr where
  | lockStandardTestFee (account : Addr)
  | depositEntireWorktop (account : Addr)
  | op (tag : Nat)
deriving DecidableEq

abbrev ManifestBuilder := List MInstr

abbrev Manifest := List MInstr

def ManifestBuilder.new : ManifestBuilder := []

def ManifestBuilder.lockStandardTestFee (b : ManifestBuilder) (account : Addr) :
    ManifestBuilder :=
  b ++ [MInstr.lockStandardTestFee account]

def ManifestBuilder.depositEntireWorktop (b : ManifestBuilder) (account : Addr) :
    ManifestBuilder :=
  b ++ [MInstr.depositEntireWorktop account]

def ManifestBuilder.build (b : ManifestBuilder) : Manifest := b

/-- Commit classification of a transaction outcome. -/
inductive TxOutcome where
  | commitSuccess
  | commitFailure
  | rejected
deriving DecidableEq

/-- A resource movement entry: a fungible quantity or a set of
non-fungible identifiers, each owned by a resource address. -/
inductive ResourceSpecifier where
  | amount (address : Addr) (amt : Decimal)
  | ids (address : Addr) (idSet : List Nat)
deriving DecidableEq

/-- A worktop change: a deposit into or a withdrawal from the worktop. -/
inductive WorktopChange where
  | put (resource : ResourceSpecifier)
  | take (resource : ResourceSpecifier)
deriving DecidableEq

def WorktopChange.isPut : WorktopChange → Bool
  | WorktopChange.put _ => true
  | WorktopChange.take _ => false

def WorktopChange.resource : WorktopChange → ResourceSpecifier
  | WorktopChange.put r => r
  | WorktopChange.take r => r

/-- The simulator transaction receipt, reduced to the members the
harness consumes: the commit classification, the worktop-change map of
the execution trace (instruction id to changes, as computed by
worktop_changes()), and the decoded committed output per instruction. -/
structure TransactionReceipt where
  outcome : TxOutcome
  execution_trace : Option (List (Nat × List WorktopChange))
  output : Nat → Nat

/-- The error taxonomy of the harness: aborts are modelled as errors. -/
inductive HarnessError where
  | notFound (key : String)
  | commitOutcomeMismatch (expected : TxOutcome) (actual : TxOutcome)
  | missingWorktopEntry (id : Nat)
deriving DecidableEq

def TransactionReceipt.expect_commit_success (r : TransactionReceipt) :
    Except HarnessError Unit :=
  if r.outcome = TxOutcome.commitSuccess then Except.ok ()
  else Except.error (HarnessError.commitOutcomeMismatch TxOutcome.commitSuccess r.outcome)

def TransactionReceipt.expect_commit_failure (r : TransactionReceipt) :
    Except HarnessError Unit :=
  if r.outcome = TxOutcome.commitFailure then Except.ok ()
  else Except.error (HarnessError.commitOutcomeMismatch TxOutcome.commitFailure r.outcome)

def TransactionReceipt.expect_rejection (r : TransactionReceipt) :
    Except HarnessError Unit :=
  if r.outcome = TxOutcome.rejected then Except.ok ()
  else Except.error (HarnessError.commitOutcomeMismatch TxOutcome.rejected r.outcome)

/-- TransactionReceiptOutputBuckets::output_buckets: requires commit
success, then per instruction id keeps the Put entries of the worktop
change trace at that id; an id missing from the trace map aborts
(the unwrap in the source); an absent trace yields the empty result. -/
def TransactionReceipt.output_buckets (r : TransactionReceipt) (instruction_ids : List Nat) :
    Except HarnessError (List (List ResourceSpecifier)) := do
  let _ ← TransactionReceipt.expect_commit_success r
  match r.execution_trace with
  | none => Except.ok []
  | some worktop_changes =>
      instruction_ids.mapM fun id =>
        match lookupKV worktop_changes id with
        | none => Except.error (HarnessError.missingWorktopEntry id)
        | some instruction_worktop_changes =>
            Except.ok (instruction_worktop_changes.filterMap fun change =>
              match change with
              | WorktopChange.put resource_specifier => some resource_specifier
              | WorktopChange.take _ => none)

/-- TransactionReceiptOutputBuckets::outputs: decodes the committed
output at every instruction id; commit success is demanded inside the
iteration, exactly as in the source. -/
def TransactionReceipt.outputs (r : TransactionReceipt) (instruction_ids : List Nat) :
    Except HarnessError (List Nat) :=
  instruction_ids.mapM fun id => do
    let _ ← TransactionReceipt.expect_commit_success r
    Except.ok (r.output id)

/-- Capability interface of the external ledger simulator and manifest
machinery, in state-passing style. `σ` is the simulator state type,
`τ` the snapshot type. -/
structure SimOps (σ τ : Type) where
  /-- LedgerSimulatorBuilder::new().without_kernel_trace().build() -/
  build : σ
  /-- new_allocated_account, returning (public key, account address);
  the private key is never used by the harness. -/
  newAllocatedAccount : σ → σ × Addr × Addr
  /-- create_fungible_resource(amount, divisibility, account) -/
  createFungibleResource : σ → Decimal → Nat → Addr → σ × Addr
  /-- create_fungible_resource_advanced(amount, divisibility, account, metadata) -/
  createFungibleResourceAdvanced : σ → Decimal → Nat → Addr → List (String × String) → σ × Addr
  /-- create_non_fungible_resource(account) -/
  createNonFungibleResource : σ → Addr → σ × Addr
  /-- compile(package_dir) -/
  compile : σ → String → σ × CompiledPackage
  /-- publish_package(compiled_package, metadata, owner_role) -/
  publishPackage : σ → CompiledPackage → Addr → σ × Addr
  /-- preview_manifest(manifest, signer public keys, 0, default flags) -/
  previewManifest : σ → Manifest → List Addr → Nat → σ × TransactionReceipt
  /-- execute_manifest(manifest, signer ids) -/
  executeManifest : σ → Manifest → List Addr → σ × TransactionReceipt
  /-- LedgerSimulator::create_snapshot -/
  createSnapshot : σ → τ
  /-- LedgerSimulatorBuilder::build_from_snapshot -/
  buildFromSnapshot : τ → σ
  /-- queryable balance of (account, resource), the observation used by tests -/
  balanceOf : σ → Addr → Addr → Decimal

/-- The mutable harness handle of src/src/environment.rs. -/
@[ext]
structure TestEnvironment (σ : Type) where
  test_runner : σ
  manifest_builder : ManifestBuilder
  package_addresses : List (String × Addr)
  public_key : Addr
  account : Addr
  dapp_definition : Addr
  admin_badge_address : Addr
  a_address : Addr
  b_address : Addr
  x_address : Addr
  y_address : Addr
  u_address : Addr
  v_address : Addr
  j_nft_address : Addr
  k_nft_address : Addr
  instruction_counter : Nat
  instruction_ids_by_label : List (String × List Nat)
deriving DecidableEq

/-- The immutable snapshot value: captured simulator state plus harness
address metadata; no manifest-builder and no instruction-tracking state. -/
structure TestEnvironmentSnapshot (τ : Type) where
  test_runner_snapshot : τ
  package_addresses : List (String × Addr)
  public_key : Addr
  account : Addr
  dapp_definition : Addr
  admin_badge_address : Addr
  a_address : Addr
  b_address : Addr
  x_address : Addr
  y_address : Addr
  u_address : Addr
  v_address : Addr
  j_nft_address : Addr
  k_nft_address : Addr
deriving DecidableEq

def sort_addresses (a_address b_address : Addr) : Addr × Addr :=
  if a_address < b_address then (a_address, b_address) else (b_address, a_address)

/-- TestEnvironmentSnapshot::from: captures the simulator state and the
address metadata; drops builder and instruction-tracking state. -/
def TestEnvironmentSnapshot.fromEnv {σ τ : Type} (ops : SimOps σ τ)
    (test_environment : TestEnvironment σ) : TestEnvironmentSnapshot τ :=
  { test_runner_snapshot := ops.createSnapshot test_environment.test_runner
    package_addresses := test_environment.package_addresses
    public_key := test_environment.public_key
    account := test_environment.account
    dapp_definition := test_environment.dapp_definition
    admin_badge_address := test_environment.admin_badge_address
    a_address := test_environment.a_address
    b_address := test_environment.b_address
    x_address := test_environment.x_address
    y_address := test_environment.y_address
    u_address := test_environment.u_address
    v_address := test_environment.v_address
    j_nft_address := test_environment.j_nft_address
    k_nft_address := test_environment.k_nft_address }

/-- TestEnvironmentSnapshot::revive: rebuilds a simulator from the
captured state (the snapshot value is cloned into the builder), seeds a
fresh manifest builder with a fee-lock against the captured primary
account, and resets instruction tracking. -/
def TestEnvironmentSnapshot.revive {σ τ : Type} (ops : SimOps σ τ)
    (s : TestEnvironmentSnapshot τ) : TestEnvironment σ :=
  { test_runner := ops.buildFromSnapshot s.test_runner_snapshot
    manifest_builder := ManifestBuilder.lockStandardTestFee ManifestBuilder.new s.account
    package_addresses := s.package_addresses
    public_key := s.public_key
    account := s.account
    dapp_definition := s.dapp_definition
    admin_badge_address := s.admin_badge_address
    a_address := s.a_address
    b_address := s.b_address
    x_address := s.x_address
    y_address := s.y_address
    u_address := s.u_address
    v_address := s.v_address
    j_nft_address := s.j_nft_address
    k_nft_address := s.k_nft_address
    instruction_counter := INSTRUCTION_COUNTER_INIT
    instruction_ids_by_label := [] }

/-- TestEnvironment::create_snapshot. -/
def TestEnvironment.create_snapshot {σ τ : Type} (env : TestEnvironment σ)
    (ops : SimOps σ τ) : TestEnvironmentSnapshot τ :=
  TestEnvironmentSnapshot.fromEnv ops env

/-- TestEnvironment::generate_new_test_environment: bootstraps a fresh
simulator, two accounts, the admin badge, the canonically ordered (x, y)
pair, the u and v fungibles and two non-fungible collections, and seeds
the manifest builder with the standard fee-lock. -/
def generate_new_test_environment {σ τ : Type} (ops : SimOps σ τ) : TestEnvironment σ :=
  let test_runner0 := ops.build
  let acc1 := ops.newAllocatedAccount test_runner0
  let public_key := acc1.2.1
  let account := acc1.2.2
  let acc2 := ops.newAllocatedAccount acc1.1
  let dapp_definition := acc2.2.2
  let manifest_builder := ManifestBuilder.lockStandardTestFee ManifestBuilder.new account
  let r1 := ops.createFungibleResource acc2.1 (dec 1) DIVISIBILITY_NONE account
  let admin_badge_address := r1.2
  let r2 := ops.createFungibleResourceAdvanced r1.1 MAX_SUPPLY DIVISIBILITY_MAXIMUM account
      [("name", "Test token A"), ("symbol", "A")]
  let a_address := r2.2
  let r3 := ops.createFungibleResourceAdvanced r2.1 MAX_SUPPLY DIVISIBILITY_MAXIMUM account
      [("name", "Test token B"), ("symbol", "B")]
  let b_address := r3.2
  let xy := sort_addresses a_address b_address
  let r4 := ops.createFungibleResource r3.1 (dec 1000000000) DIVISIBILITY_MAXIMUM account
  let u_address := r4.2
  let r5 := ops.createFungibleResource r4.1 (dec 10000000) DIVISIBILITY_MAXIMUM account
  let v_address := r5.2
  let r6 := ops.createNonFungibleResource r5.1 account
  let j_nft_address := r6.2
  let r7 := ops.createNonFungibleResource r6.1 account
  let k_nft_address := r7.2
  { test_runner := r7.1
    manifest_builder := manifest_builder
    package_addresses := []
    public_key := public_key
    account := account
    dapp_definition := dapp_definition
    admin_badge_address := admin_badge_address
    a_address := a_address
    b_address := b_address
    x_address := xy.1
    y_address := xy.2
    u_address := u_address
    v_address := v_address
    j_nft_address := j_nft_address
    k_nft_address := k_nft_address
    instruction_counter := INSTRUCTION_COUNTER_INIT
    instruction_ids_by_label := [] }

/-- TestEnvironment::new_instruction: records counter plus offset under
the label and advances the counter by the number of appended operations. -/
def TestEnvironment.new_instruction {σ : Type} (env : TestEnvironment σ) (label : String)
    (instruction_count : Nat) (label_instruction_id : Nat) : TestEnvironment σ :=
  { env with
    instruction_ids_by_label :=
      pushLabel env.instruction_ids_by_label label
        (env.instruction_counter + label_instruction_id)
    instruction_counter := env.instruction_counter + instruction_count }

/-- TestEnvironment::package_address: the expect on a missing name is a
NotFound abort carrying the name. -/
def TestEnvironment.package_address {σ : Type} (env : TestEnvironment σ)
    (package_name : String) : Except HarnessError Addr :=
  match lookupKV env.package_addresses package_name with
  | some addr => Except.ok addr
  | none => Except.error (HarnessError.notFound package_name)

/-- TestEnvironment::compile_and_publish_packages: per package, resolve
the artifact through the package cache (compiling and inserting on a
miss), publish it with an owner role requiring the admin badge, and
extend the address table by the new name-to-address entries. -/
def compile_and_publish_packages {σ τ : Type} (ops : SimOps σ τ)
    (package_cache : List (String × CompiledPackage)) (env : TestEnvironment σ)
    (packages : List (String × String)) :
    List (String × CompiledPackage) × TestEnvironment σ :=
  let step := fun (acc : List (String × CompiledPackage) × σ × List (String × Addr))
      (p : String × String) =>
    let r :=
      match lookupKV acc.1 p.2 with
      | some compiled_package => (acc.1, acc.2.1, compiled_package)
      | none =>
          let c := ops.compile acc.2.1 p.2
          (write_cache acc.1 p.2 c.2, c.1, c.2)
    let pub := ops.publishPackage r.2.1 r.2.2 env.admin_badge_address
    (r.1, pub.1, acc.2.2 ++ [(p.1, pub.2)])
  let res := packages.foldl step (package_cache, env.test_runner, [])
  (res.1,
    { env with
      test_runner := res.2.1
      package_addresses := extendKV env.package_addresses res.2.2 })

/-- The two process-wide caches, made explicit state. -/
structure Caches (τ : Type) where
  test_environment_cache : List (List String × TestEnvironmentSnapshot τ)
  package_cache : List (String × CompiledPackage)

/-- get_cache_test_environment: a hit is revived directly. -/
def get_cache_test_environment {σ τ : Type} (ops : SimOps σ τ)
    (cache : List (List String × TestEnvironmentSnapshot τ)) (key : List String) :
    Option (TestEnvironment σ) :=
  match lookupKV cache key with
  | some snapshot => some (TestEnvironmentSnapshot.revive ops snapshot)
  | none => none

/-- The baseline environment resolved by TestEnvironment::new: the
cached packageless snapshot revived, or a freshly generated environment
(src/src/environment.rs lines 135 to 144). -/
def baseline_environment {σ τ : Type} (ops : SimOps σ τ) (caches : Caches τ) :
    TestEnvironment σ :=
  match get_cache_test_environment ops caches.test_environment_cache [] with
  | some env => env
  | none => generate_new_test_environment ops

/-- TestEnvironment::new: resolve the canonical package-location set in
the environment cache; on a miss, obtain or build-and-cache the
packageless baseline, publish the requested packages on top of it, and
cache the snapshot of the result under the computed set. -/
def TestEnvironment.new {σ τ : Type} (ops : SimOps σ τ) (caches : Caches τ)
    (packages : List (String × String)) : Caches τ × TestEnvironment σ :=
  let package_dirs := canonicalDirs packages
  match get_cache_test_environment ops caches.test_environment_cache package_dirs with
  | some test_environment_ => (caches, test_environment_)
  | none =>
      let base :=
        match get_cache_test_environment ops caches.test_environment_cache [] with
        | some env => (caches, env)
        | none =>
            let test_environment_empty_ := generate_new_test_environment ops
            ({ caches with
                test_environment_cache :=
                  write_cache caches.test_environment_cache []
                    (TestEnvironment.create_snapshot test_environment_empty_ ops) },
              test_environment_empty_)
      if packages.isEmpty then base
      else
        let pub := compile_and_publish_packages ops base.1.package_cache base.2 packages
        ({ test_environment_cache :=
              write_cache base.1.test_environment_cache package_dirs
                (TestEnvironment.create_snapshot pub.2 ops),
           package_cache := pub.1 },
          pub.2)

/-- The receipt pairing the preview and the committing outcome of the
identical manifest, plus the label map as it stood at submission time. -/
structure Receipt where
  execution_receipt : TransactionReceipt
  preview_receipt : TransactionReceipt
  instruction_ids_by_label : List (String × List Nat)

/-- TestHelperExecution::reset_instructions. -/
def reset_instructions {σ : Type} (env : TestEnvironment σ) : TestEnvironment σ :=
  { env with
    instruction_ids_by_label := []
    instruction_counter := INSTRUCTION_COUNTER_INIT }

/-- TestHelperExecution::execute: append the trailing deposit of the
entire worktop back to the primary account, run the manifest in preview
mode and in committing mode with the same signer, snapshot the label
map into the receipt, clear tracking state, and re-seed a fresh builder
with a new fee-lock. The verbose flag only controls logging. -/
def execute {σ τ : Type} (ops : SimOps σ τ) (env : TestEnvironment σ) (verbose : Bool) :
    TestEnvironment σ × Receipt :=
  let account_component := env.account
  let public_key := env.public_key
  let manifest :=
    ManifestBuilder.build (ManifestBuilder.depositEntireWorktop env.manifest_builder
      account_component)
  let pr := ops.previewManifest env.test_runner manifest [public_key] 0
  let er := ops.executeManifest pr.1 manifest [public_key]
  let _ := verbose
  let instruction_mapping := env.instruction_ids_by_label
  let env1 := reset_instructions { env with test_runner := er.1 }
  let env2 :=
    { env1 with
      manifest_builder :=
        ManifestBuilder.lockStandardTestFee ManifestBuilder.new account_component }
  (env2,
    { execution_receipt := er.2
      preview_receipt := pr.2
      instruction_ids_by_label := instruction_mapping })

/-- TestHelperExecution::execute_expect_success. -/
def execute_expect_success {σ τ : Type} (ops : SimOps σ τ) (env : TestEnvironment σ)
    (verbose : Bool) : Except HarnessError (TestEnvironment σ × Receipt) := do
  let res := execute ops env verbose
  let _ ← TransactionReceipt.expect_commit_success res.2.execution_receipt
  Except.ok res

/-- TestHelperExecution::execute_expect_failure. -/
def execute_expect_failure {σ τ : Type} (ops : SimOps σ τ) (env : TestEnvironment σ)
    (verbose : Bool) : Except HarnessError (TestEnvironment σ × Receipt) := do
  let res := execute ops env verbose
  let _ ← TransactionReceipt.expect_commit_failure res.2.execution_receipt
  Except.ok res

/-- TestHelperExecution::execute_expect_rejection. -/
def execute_expect_rejection {σ τ : Type} (ops : SimOps σ τ) (env : TestEnvironment σ)
    (verbose : Bool) : Except HarnessError (TestEnvironment σ × Receipt) := do
  let res := execute ops env verbose
  let _ ← TransactionReceipt.expect_rejection res.2.execution_receipt
  Except.ok res

/-- Receipt::instruction_ids: a missing label is a NotFound abort
carrying the label. -/
def Receipt.instruction_ids (r : Receipt) (instruction_label : String) :
    Except HarnessError (List Nat) :=
  match lookupKV r.instruction_ids_by_label instruction_label with
  | some ids => Except.ok ids
  | none => Except.error (HarnessError.notFound instruction_label)

/-- Receipt::output_buckets: label resolution first, then the
worktop-change query against the preview receipt. -/
def Receipt.output_buckets (r : Receipt) (instruction_label : String) :
    Except HarnessError (List (List ResourceSpecifier)) := do
  let ids ← Receipt.instruction_ids r instruction_label
  TransactionReceipt.output_buckets r.preview_receipt ids

/-- Receipt::outputs: label resolution first, then the decoded outputs
of the execution receipt. -/
def Receipt.outputs (r : Receipt) (instruction_label : String) :
    Except HarnessError (List Nat) := do
  let ids ← Receipt.instruction_ids r instruction_label
  TransactionReceipt.outputs r.execution_receipt ids

/-- A world of independently revived handles; executing through one
handle only replaces that handle. -/
def executeAt {σ τ : Type} (ops : SimOps σ τ) (w : List (TestEnvironment σ)) (i : Nat)
    (verbose : Bool) : List (TestEnvironment σ) :=
  match w[i]? with
  | none => w
  | some env => w.set i (execute ops env verbose).1

/-- Bucket::take and Vault::take: removing amount from a holding aborts
when the holding is insufficient or the amount negative; returns the
taken amount and the remainder. -/
def bucketTake (holding : Decimal) (amount : Decimal) : Except String (Decimal × Decimal) :=
  if 0 ≤ amount ∧ amount ≤ holding then Except.ok (amount, holding - amount)
  else Except.error "insufficient balance"

/-- A concrete worktop-change trace: instruction 1 deposits five units
of resource 7 to the worktop and withdraws two units. -/
def demoTrace : List (Nat × List WorktopChange) :=
  [(1, [WorktopChange.put (ResourceSpecifier.amount 7 (dec 5)),
        WorktopChange.take (ResourceSpecifier.amount 7 (dec 2))])]

def demoPreviewReceipt : TransactionReceipt :=
  { outcome := TxOutcome.commitSuccess
    execution_trace := some demoTrace
    output := fun _ => 0 }

def demoSuccessReceipt : TransactionReceipt :=
  { outcome := TxOutcome.commitSuccess, execution_trace := some [], output := fun _ => 0 }

def demoFailureReceipt : TransactionReceipt :=
  { outcome := TxOutcome.commitFailure, execution_trace := none, output := fun _ => 0 }

/-- A small concrete simulator over natural-number states, with identity
snapshots; used to instantiate the capability interface. -/
def demoOps : SimOps Nat Nat :=
  { build := 0
    newAllocatedAccount := fun s => (s + 1, s + 10, s + 20)
    createFungibleResource := fun s _ _ _ => (s + 1, s + 30)
    createFungibleResourceAdvanced := fun s _ _ _ _ => (s + 1, s + 40)
    createNonFungibleResource := fun s _ => (s + 1, s + 50)
    compile := fun s d => (s + 1, d.length)
    publishPackage := fun s cp _ => (s + 1, cp + 100)
    previewManifest := fun s _ _ _ => (s + 1, demoPreviewReceipt)
    executeManifest := fun s _ _ => (s + 1, demoSuccessReceipt)
    createSnapshot := fun s => s
    buildFromSnapshot := fun t => t
    balanceOf := fun s a r => (s : Int) + a + r }

/-- A simulator whose committing execution fails while its preview
commits successfully. -/
def demoOpsFail : SimOps Nat Nat :=
  { demoOps with
    previewManifest := fun s _ _ _ => (s + 1, demoPreviewReceipt)
    executeManifest := fun s _ _ => (s + 1, demoFailureReceipt) }

def demoSnapshot : TestEnvironmentSnapshot Nat :=
  { test_runner_snapshot := 0, package_addresses := [], public_key := 1, account := 2
    dapp_definition := 3, admin_badge_address := 4, a_address := 5, b_address := 6
    x_address := 5, y_address := 6, u_address := 7, v_address := 8
    j_nft_address := 9, k_nft_address := 10 }

/-- A handle with one registered label, swap at instruction id 1. -/
def demoEnvLabelled : TestEnvironment Nat :=
  { test_runner := 0
    manifest_builder := ManifestBuilder.lockStandardTestFee ManifestBuilder.new 2
    package_addresses := [], public_key := 1, account := 2, dapp_definition := 3
    admin_badge_address := 4, a_address := 5, b_address := 6, x_address := 5, y_address := 6
    u_address := 7, v_address := 8, j_nft_address := 9, k_nft_address := 10
    instruction_counter := 4, instruction_ids_by_label := [("swap", [1])] }

def demoReceiptLabelled : Receipt :=
  { execution_receipt := demoSuccessReceipt
    preview_receipt := demoPreviewReceipt
    instruction_ids_by_label := [("swap", [1])] }

def demoReceiptEmpty : Receipt :=
  { execution_receipt := demoSuccessReceipt
    preview_receipt := demoSuccessReceipt
    instruction_ids_by_label := [] }

def demoReceiptFail : Receipt :=
  { execution_receipt := demoFailureReceipt
    preview_receipt := demoFailureReceipt
    instruction_ids_by_label := [("swap", [1])] }

def cachesEmpty : Caches Nat := { test_environment_cache := [], package_cache := [] }

/-- The hello_swap component state: the two vaults and the unit price. -/
structure HelloSwap where
  x_vault : Decimal
  y_vault : Decimal
  price : Decimal
deriving DecidableEq

/-- HelloSwap::instantiate: asserts a positive price; the x vault starts
empty and the y vault holds the provided bucket; returns the state and
the price. -/
def HelloSwap.instantiate (y_bucket : Decimal) (price : Decimal) :
    Except String (HelloSwap × Decimal) :=
  if 0 < price then Except.ok ({ x_vault := 0, y_vault := y_bucket, price := price }, price)
  else Except.error "Price needs to be positive."

/-- HelloSwap::swap: take the price from the input bucket, take one unit
from the y vault, put the taken input into the x vault, and return the
output bucket and the input remainder. -/
def HelloSwap.swap (s : HelloSwap) (x_bucket : Decimal) :
    Except String (HelloSwap × Decimal × Decimal) := do
  let inp ← bucketTake x_bucket s.price
  let outp ← bucketTake s.y_vault (dec 1)
  Except.ok ({ s with x_vault := s.x_vault + inp.1, y_vault := outp.2 }, outp.1, inp.2)

/-! Helper lemmas about the association-list primitives. -/

theorem lookupKV_append_of_none {K V : Type} [DecidableEq K] (l1 l2 : List (K × V)) (k : K)
    (h : lookupKV l1 k = none) : lookupKV (l1 ++ l2) k = lookupKV l2 k := by
  induction l1 with
  | nil => rfl
  | cons p rest ih =>
      obtain ⟨k0, v0⟩ := p
      by_cases hk : k0 = k
      · simp [lookupKV, hk] at h
      · simp [lookupKV, hk] at h ⊢
        exact ih h

theorem lookupKV_write_cache_self {K V : Type} [DecidableEq K] (cache : List (K × V)) (k : K)
    (v : V) (h : lookupKV cache k = none) : lookupKV (write_cache cache k v) k = some v := by
  unfold write_cache
  rw [h, lookupKV_append_of_none cache [(k, v)] k h]
  simp [lookupKV]

theorem lookupKV_append_elem_ne {K V : Type} [DecidableEq K] (l : List (K × V)) (k k2 : K)
    (v : V) (h : k2 ≠ k) : lookupKV (l ++ [(k, v)]) k2 = lookupKV l k2 := by
  induction l with
  | nil =>
      simp only [List.nil_append, lookupKV]
      rw [if_neg (fun e => h (Eq.symm e))]
  | cons p rest ih =>
      obtain ⟨k0, v0⟩ := p
      by_cases hk : k0 = k2
      · simp only [List.cons_append, lookupKV, if_pos hk]
      · simp only [List.cons_append, lookupKV, if_neg hk]
        exact ih

theorem lookupKV_write_cache_ne {K V : Type} [DecidableEq K] (cache : List (K × V)) (k k2 : K)
    (v : V) (h : k2 ≠ k) : lookupKV (write_cache cache k v) k2 = lookupKV cache k2 := by
  unfold write_cache
  cases hx : lookupKV cache k with
  | some v0 => rfl
  | none => exact lookupKV_append_elem_ne cache k k2 v h

theorem write_cache_of_some {K V : Type} [DecidableEq K] (cache : List (K × V)) (k : K)
    (v0 v : V) (h : lookupKV cache k = some v0) : write_cache cache k v = cache := by
  unfold write_cache
  rw [h]

theorem lookupKV_pushLabel_self {K : Type} [DecidableEq K] (m : List (K × List Nat)) (label : K)
    (id : Nat) :
    lookupKV (pushLabel m label id) label = some ((lookupKV m label).getD [] ++ [id]) := by
  induction m with
  | nil => simp [pushLabel, lookupKV]
  | cons p rest ih =>
      obtain ⟨k0, v0⟩ := p
      by_cases hk : k0 = label
      · subst hk
        simp [pushLabel, lookupKV]
      · simp only [pushLabel, if_neg hk, lookupKV, ih]

theorem lookupKV_pushLabel_ne {K : Type} [DecidableEq K] (m : List (K × List Nat)) (label l2 : K)
    (id : Nat) (h : l2 ≠ label) : lookupKV (pushLabel m label id) l2 = lookupKV m l2 := by
  induction m with
  | nil =>
      simp only [pushLabel, lookupKV]
      rw [if_neg (fun e => h (Eq.symm e))]
  | cons p rest ih =>
      obtain ⟨k0, v0⟩ := p
      by_cases hk : k0 = label
      · subst hk
        have hne : ¬ k0 = l2 := fun e => h (Eq.symm e)
        simp only [pushLabel, if_pos rfl, lookupKV, if_neg hne]
      · simp only [pushLabel, if_neg hk, lookupKV, ih]

theorem filterMap_put_eq (cs : List WorktopChange) :
    (cs.filterMap fun change =>
        match change with
        | WorktopChange.put resource_specifier => some resource_specifier
        | WorktopChange.take _ => none)
      = (cs.filter WorktopChange.isPut).map WorktopChange.resource := by
  induction cs with
  | nil => rfl
  | cons c rest ih =>
      cases c with
      | put r => simp [List.filterMap_cons, List.filter_cons, WorktopChange.isPut,
          WorktopChange.resource, ih]
      | take r => simp [List.filterMap_cons, List.filter_cons, WorktopChange.isPut,
          WorktopChange.resource, ih]

theorem btreeInsert_ne_nil (x : String) (l : List String) : btreeInsert x l ≠ [] := by
  unfold btreeInsert
  by_cases hx : x ∈ l
  · simp [hx]
    intro he
    subst he
    simp at hx
  · simp [hx]

theorem canonicalDirs_ne_nil (packages : List (String × String)) (h : packages ≠ []) :
    canonicalDirs packages ≠ [] := by
  have aux : ∀ (ps : List (String × String)) (acc : List String), acc ≠ [] →
      ps.foldl (fun acc p => btreeInsert p.2 acc) acc ≠ [] := by
    intro ps
    induction ps with
    | nil => intro acc hacc; exact hacc
    | cons p rest ih =>
        intro acc _
        exact ih (btreeInsert p.2 acc) (btreeInsert_ne_nil p.2 acc)
  cases packages with
  | nil => exact absurd rfl h
  | cons p rest =>
      unfold canonicalDirs
      simp only [List.foldl_cons]
      exact aux rest (btreeInsert p.2 []) (btreeInsert_ne_nil p.2 [])

/-- A snapshot-then-revive round trip is the identity on a handle that
is in the freshly-revived shape, provided the simulator reconstructs
snapshots exactly. -/
theorem revive_create_snapshot {σ τ : Type} (ops : SimOps σ τ)
    (hrt : ∀ s, ops.buildFromSnapshot (ops.createSnapshot s) = s) (e : TestEnvironment σ)
    (hb : e.manifest_builder = ManifestBuilder.lockStandardTestFee ManifestBuilder.new e.account)
    (hc : e.instruction_counter = INSTRUCTION_COUNTER_INIT)
    (hl : e.instruction_ids_by_label = []) :
    TestEnvironmentSnapshot.revive ops (TestEnvironment.create_snapshot e ops) = e := by
  exact TestEnvironment.ext (hrt e.test_runner) hb.symm rfl rfl rfl rfl rfl rfl rfl rfl rfl
    rfl rfl rfl rfl hc.symm hl.symm

/-- The baseline environment is always in the freshly-revived shape. -/
theorem baseline_environment_shape {σ τ : Type} (ops : SimOps σ τ) (caches : Caches τ) :
    (baseline_environment ops caches).manifest_builder
      = ManifestBuilder.lockStandardTestFee ManifestBuilder.new
          (baseline_environment ops caches).account
    ∧ (baseline_environment ops caches).instruction_counter = INSTRUCTION_COUNTER_INIT
    ∧ (baseline_environment ops caches).instruction_ids_by_label = [] := by
  cases h : lookupKV caches.test_environment_cache ([] : List String) with
  | none =>
      simp only [baseline_environment, get_cache_test_environment, h]
      exact ⟨rfl, rfl, rfl⟩
  | some snap =>
      simp only [baseline_environment, get_cache_test_environment, h]
      exact ⟨rfl, rfl, rfl⟩

/-- Inversion of a successful Except bind. -/
theorem exceptBind_ok {ε α β : Type} {m : Except ε α} {f : α → Except ε β} {r : β}
    (h : (m >>= f) = Except.ok r) : ∃ a, m = Except.ok a ∧ f a = Except.ok r := by
  cases m with
  | error e => exact Except.noConfusion h
  | ok a => exact ⟨a, rfl, h⟩

/-- A successful take returns the requested amount and the difference. -/
theorem bucketTake_ok (holding amount : Decimal) (p : Decimal × Decimal)
    (h : bucketTake holding amount = Except.ok p) : p.1 = amount ∧ p.2 = holding - amount := by
  unfold bucketTake at h
  by_cases hc : 0 ≤ amount ∧ amount ≤ holding
  · rw [if_pos hc] at h
    cases h
    exact ⟨rfl, rfl⟩
  · rw [if_neg hc] at h
    exact Except.noConfusion h

/-- C2: reviving the snapshot of an environment restores the package
address table, the public key, both account addresses and all nine
resource addresses, and initializes the counter to 1, the label map to
empty, and the manifest builder to a fresh fee-lock against the
captured primary account. -/
theorem c2_snapshot_revive_fields {σ τ : Type} (ops : SimOps σ τ) (env : TestEnvironment σ) :
    (TestEnvironmentSnapshot.revive ops (TestEnvironmentSnapshot.fromEnv ops env)).package_addresses
      = env.package_addresses
    ∧ (TestEnvironmentSnapshot.revive ops (TestEnvironmentSnapshot.fromEnv ops env)).public_key
      = env.public_key
    ∧ (TestEnvironmentSnapshot.revive ops (TestEnvironmentSnapshot.fromEnv ops env)).account
      = env.account
    ∧ (TestEnvironmentSnapshot.revive ops (TestEnvironmentSnapshot.fromEnv ops env)).dapp_definition
      = env.dapp_definition
    ∧ (TestEnvironmentSnapshot.revive ops (TestEnvironmentSnapshot.fromEnv ops env)).admin_badge_address
      = env.admin_badge_address
    ∧ (TestEnvironmentSnapshot.revive ops (TestEnvironmentSnapshot.fromEnv ops env)).a_address
      = env.a_address
    ∧ (TestEnvironmentSnapshot.revive ops (TestEnvironmentSnapshot.fromEnv ops env)).b_address
      = env.b_address
    ∧ (TestEnvironmentSnapshot.revive ops (TestEnvironmentSnapshot.fromEnv ops env)).x_address
      = env.x_address
    ∧ (TestEnvironmentSnapshot.revive ops (TestEnvironmentSnapshot.fromEnv ops env)).y_address
      = env.y_address
    ∧ (TestEnvironmentSnapshot.revive ops (TestEnvironmentSnapshot.fromEnv ops env)).u_address
      = env.u_address
    ∧ (TestEnvironmentSnapshot.revive ops (TestEnvironmentSnapshot.fromEnv ops env)).v_address
      = env.v_address
    ∧ (TestEnvironmentSnapshot.revive ops (TestEnvironmentSnapshot.fromEnv ops env)).j_nft_address
      = env.j_nft_address
    ∧ (TestEnvironmentSnapshot.revive ops (TestEnvironmentSnapshot.fromEnv ops env)).k_nft_address
      = env.k_nft_address
    ∧ (TestEnvironmentSnapshot.revive ops (TestEnvironmentSnapshot.fromEnv ops env)).instruction_counter
      = 1
    ∧ (TestEnvironmentSnapshot.revive ops (TestEnvironmentSnapshot.fromEnv ops env)).instruction_ids_by_label
      = []
    ∧ (TestEnvironmentSnapshot.revive ops (TestEnvironmentSnapshot.fromEnv ops env)).manifest_builder
      = ManifestBuilder.lockStandardTestFee ManifestBuilder.new env.account :=
  ⟨rfl, rfl, rfl, rfl, rfl, rfl, rfl, rfl, rfl, rfl, rfl, rfl, rfl, rfl, rfl, rfl⟩

/-- C3: new_instruction appends counter plus offset under the label
(accumulating, never overwriting), advances the counter by exactly the
instruction count, leaves other labels untouched, and the counter of a
fresh environment starts at 1. -/
theorem c3_new_instruction_tracking {σ : Type} (env : TestEnvironment σ) (label l2 : String)
    (instruction_count label_instruction_id : Nat) (hne : l2 ≠ label) :
    lookupKV (env.new_instruction label instruction_count
          label_instruction_id).instruction_ids_by_label label
      = some ((lookupKV env.instruction_ids_by_label label).getD []
          ++ [env.instruction_counter + label_instruction_id])
    ∧ (env.new_instruction label instruction_count
          label_instruction_id).instruction_counter
      = env.instruction_counter + instruction_count
    ∧ lookupKV (env.new_instruction label instruction_count
          label_instruction_id).instruction_ids_by_label l2
      = lookupKV env.instruction_ids_by_label l2
    ∧ INSTRUCTION_COUNTER_INIT = 1 :=
  ⟨lookupKV_pushLabel_self env.instruction_ids_by_label label
      (env.instruction_counter + label_instruction_id),
    rfl,
    lookupKV_pushLabel_ne env.instruction_ids_by_label label l2
      (env.instruction_counter + label_instruction_id) hne,
    rfl⟩

theorem c3_new_instruction_tracking_witness :
    ("b" ≠ "a")
    ∧ (lookupKV ((TestEnvironmentSnapshot.revive demoOps demoSnapshot).new_instruction "a" 3
            2).instruction_ids_by_label "a"
        = some ((lookupKV (TestEnvironmentSnapshot.revive demoOps
              demoSnapshot).instruction_ids_by_label "a").getD []
            ++ [(TestEnvironmentSnapshot.revive demoOps demoSnapshot).instruction_counter + 2])
      ∧ ((TestEnvironmentSnapshot.revive demoOps demoSnapshot).new_instruction "a" 3
            2).instruction_counter
        = (TestEnvironmentSnapshot.revive demoOps demoSnapshot).instruction_counter + 3
      ∧ lookupKV ((TestEnvironmentSnapshot.revive demoOps demoSnapshot).new_instruction "a" 3
            2).instruction_ids_by_label "b"
        = lookupKV (TestEnvironmentSnapshot.revive demoOps
            demoSnapshot).instruction_ids_by_label "b"
      ∧ INSTRUCTION_COUNTER_INIT = 1) :=
  ⟨by decide,
    c3_new_instruction_tracking (TestEnvironmentSnapshot.revive demoOps demoSnapshot) "a" "b" 3 2
      (by decide)⟩

/-- C4: execute returns a receipt holding the label map as it stood at
submission, resets the counter to 1 and the label map to empty,
re-seeds the builder with a fresh fee-lock, and no other operation
resets the counter: new_instruction advances it by its count and
publishing leaves it unchanged. -/
theorem c4_execute_resets_tracking {σ τ : Type} (ops : SimOps σ τ) (env : TestEnvironment σ)
    (verbose : Bool) :
    (execute ops env verbose).2.instruction_ids_by_label = env.instruction_ids_by_label
    ∧ (execute ops env verbose).1.instruction_counter = 1
    ∧ (execute ops env verbose).1.instruction_ids_by_label = []
    ∧ (execute ops env verbose).1.manifest_builder
      = ManifestBuilder.lockStandardTestFee ManifestBuilder.new env.account
    ∧ (∀ (label : String) (c i : Nat),
        (env.new_instruction label c i).instruction_counter = env.instruction_counter + c)
    ∧ (∀ (package_cache : List (String × CompiledPackage)) (pkgs : List (String × String)),
        ((compile_and_publish_packages ops package_cache env pkgs).2).instruction_counter
          = env.instruction_counter) :=
  ⟨rfl, rfl, rfl, rfl, fun _ _ _ => rfl, fun _ _ => rfl⟩

/-- C5: a package name never published resolves to a NotFound error
carrying that name, and a label never registered makes both receipt
queries fail with a NotFound error carrying that label; neither returns
an empty result. -/
theorem c5_notfound_resolution {σ : Type} (env : TestEnvironment σ) (package_name : String)
    (r : Receipt) (label : String)
    (h1 : lookupKV env.package_addresses package_name = none)
    (h2 : lookupKV r.instruction_ids_by_label label = none) :
    env.package_address package_name = Except.error (HarnessError.notFound package_name)
    ∧ Receipt.outputs r label = Except.error (HarnessError.notFound label)
    ∧ Receipt.output_buckets r label = Except.error (HarnessError.notFound label) := by
  have hids : Receipt.instruction_ids r label = Except.error (HarnessError.notFound label) := by
    unfold Receipt.instruction_ids
    rw [h2]
  refine ⟨?_, ?_, ?_⟩
  · unfold TestEnvironment.package_address
    rw [h1]
  · unfold Receipt.outputs
    rw [hids]
    rfl
  · unfold Receipt.output_buckets
    rw [hids]
    rfl

theorem c5_notfound_resolution_witness :
    lookupKV (TestEnvironmentSnapshot.revive demoOps demoSnapshot).package_addresses
        "Unregistered" = none
    ∧ lookupKV demoReceiptEmpty.instruction_ids_by_label "unregistered_label" = none
    ∧ ((TestEnvironmentSnapshot.revive demoOps demoSnapshot).package_address "Unregistered"
        = Except.error (HarnessError.notFound "Unregistered")
      ∧ Receipt.outputs demoReceiptEmpty "unregistered_label"
        = Except.error (HarnessError.notFound "unregistered_label")
      ∧ Receipt.output_buckets demoReceiptEmpty "unregistered_label"
        = Except.error (HarnessError.notFound "unregistered_label")) :=
  ⟨rfl, rfl,
    c5_notfound_resolution (TestEnvironmentSnapshot.revive demoOps demoSnapshot) "Unregistered"
      demoReceiptEmpty "unregistered_label" rfl rfl⟩

/-- C7 counterexample: on a cache already holding key 0, two write_cache
calls do not leave the cache mapping the key to the first written value;
the pre-existing entry wins. -/
theorem c7_counterexample :
    ¬ lookupKV (write_cache (write_cache [((0 : Nat), (5 : Nat))] 0 1) 0 2) 0 = some 1 := by
  decide

/-- C7 (amended): on a cache with no entry for the key, writing v1 and
then v2 leaves the cache mapping the key to v1; in general an entry, once
present, is never overwritten and the later insertion is silently
discarded. -/
theorem c7_first_insertion_wins {K V : Type} [DecidableEq K] (cache : List (K × V)) (k : K)
    (v1 v2 : V) (h : lookupKV cache k = none) :
    lookupKV (write_cache (write_cache cache k v1) k v2) k = some v1
    ∧ (∀ (cache2 : List (K × V)) (v0 v3 : V), lookupKV cache2 k = some v0 →
        write_cache cache2 k v3 = cache2) := by
  have h1 := lookupKV_write_cache_self cache k v1 h
  constructor
  · rw [write_cache_of_some (write_cache cache k v1) k v1 v2 h1]
    exact h1
  · intro cache2 v0 v3 hv
    exact write_cache_of_some cache2 k v0 v3 hv

theorem c7_first_insertion_wins_witness :
    lookupKV ([] : List (Nat × Nat)) 0 = none
    ∧ (lookupKV (write_cache (write_cache ([] : List (Nat × Nat)) 0 1) 0 2) 0 = some 1
      ∧ (∀ (cache2 : List (Nat × Nat)) (v0 v3 : Nat), lookupKV cache2 0 = some v0 →
          write_cache cache2 0 v3 = cache2)) :=
  ⟨rfl, c7_first_insertion_wins [] 0 1 2 rfl⟩

/-- C9: instantiating with a ten unit y reserve at unit price one, a
swap of one x unit yields one y unit and zero remainder, and a
subsequent swap of two x units against the remaining nine unit reserve
yields one y unit and one x unit remainder; in general every successful
swap outputs exactly one y unit and returns the input minus the price. -/
theorem c9_swap_scenario :
    HelloSwap.instantiate (dec 10) (dec 1)
      = Except.ok ({ x_vault := 0, y_vault := dec 10, price := dec 1 }, dec 1)
    ∧ HelloSwap.swap { x_vault := 0, y_vault := dec 10, price := dec 1 } (dec 1)
      = Except.ok ({ x_vault := dec 1, y_vault := dec 9, price := dec 1 }, dec 1, 0)
    ∧ HelloSwap.swap { x_vault := dec 1, y_vault := dec 9, price := dec 1 } (dec 2)
      = Except.ok ({ x_vault := dec 2, y_vault := dec 8, price := dec 1 }, dec 1, dec 1)
    ∧ (∀ (s : HelloSwap) (x : Decimal) (s2 : HelloSwap) (outp rem : Decimal),
        HelloSwap.swap s x = Except.ok (s2, outp, rem) → outp = dec 1 ∧ rem = x - s.price) := by
  refine ⟨rfl, rfl, rfl, ?_⟩
  intro s x s2 outp rem h
  unfold HelloSwap.swap at h
  obtain ⟨p1, hb1, h⟩ := exceptBind_ok h
  obtain ⟨p2, hb2, h⟩ := exceptBind_ok h
  obtain ⟨ht1, hr1⟩ := bucketTake_ok x s.price p1 hb1
  obtain ⟨ht2, hr2⟩ := bucketTake_ok s.y_vault (dec 1) p2 hb2
  simp only [Except.ok.injEq, Prod.mk.injEq] at h
  exact ⟨h.2.1.symm.trans ht2, h.2.2.symm.trans hr1⟩

theorem c9_swap_scenario_witness :
    HelloSwap.swap { x_vault := 0, y_vault := dec 10, price := dec 1 } (dec 1)
      = Except.ok ({ x_vault := dec 1, y_vault := dec 9, price := dec 1 }, dec 1, 0)
    ∧ (dec 1 = dec 1 ∧ (0 : Decimal) = dec 1 - dec 1) :=
  ⟨rfl,
    c9_swap_scenario.2.2.2 { x_vault := 0, y_vault := dec 10, price := dec 1 } (dec 1)
      { x_vault := dec 1, y_vault := dec 9, price := dec 1 } (dec 1) 0 rfl⟩

/-- C1: executing a manifest through one handle revived from a snapshot
leaves every other handle revived from the same snapshot unchanged:
its queryable addresses and balances equal those of a fresh revival. -/
theorem c1_revive_isolation {σ τ : Type} (ops : SimOps σ τ) (s : TestEnvironmentSnapshot τ)
    (n i j : Nat) (verbose : Bool) (hij : i ≠ j) (hj : j < n) :
    (executeAt ops (List.replicate n (TestEnvironmentSnapshot.revive ops s)) i verbose)[j]?
      = some (TestEnvironmentSnapshot.revive ops s)
    ∧ (∀ (env2 : TestEnvironment σ),
        (executeAt ops (List.replicate n (TestEnvironmentSnapshot.revive ops s)) i verbose)[j]?
          = some env2 →
        env2.package_addresses = (TestEnvironmentSnapshot.revive ops s).package_addresses
        ∧ ∀ (acct res : Addr),
            ops.balanceOf env2.test_runner acct res
              = ops.balanceOf (TestEnvironmentSnapshot.revive ops s).test_runner acct res) := by
  have hmain : (executeAt ops (List.replicate n (TestEnvironmentSnapshot.revive ops s)) i
      verbose)[j]? = some (TestEnvironmentSnapshot.revive ops s) := by
    unfold executeAt
    cases hx : (List.replicate n (TestEnvironmentSnapshot.revive ops s))[i]? with
    | none => simp [List.getElem?_replicate, hj]
    | some env =>
        rw [List.getElem?_set_ne hij]
        simp [List.getElem?_replicate, hj]
  refine ⟨hmain, ?_⟩
  intro env2 h
  rw [hmain] at h
  injection h with h2
  subst h2
  exact ⟨rfl, fun _ _ => rfl⟩

theorem c1_revive_isolation_witness :
    ((0 : Nat) ≠ 1) ∧ ((1 : Nat) < 2)
    ∧ ((executeAt demoOps (List.replicate 2 (TestEnvironmentSnapshot.revive demoOps
          demoSnapshot)) 0 false)[1]?
        = some (TestEnvironmentSnapshot.revive demoOps demoSnapshot)
      ∧ (∀ (env2 : TestEnvironment Nat),
          (executeAt demoOps (List.replicate 2 (TestEnvironmentSnapshot.revive demoOps
              demoSnapshot)) 0 false)[1]?
            = some env2 →
          env2.package_addresses
            = (TestEnvironmentSnapshot.revive demoOps demoSnapshot).package_addresses
          ∧ ∀ (acct res : Addr),
              demoOps.balanceOf env2.test_runner acct res
                = demoOps.balanceOf (TestEnvironmentSnapshot.revive demoOps
                    demoSnapshot).test_runner acct res)) :=
  ⟨by decide, by decide,
    c1_revive_isolation demoOps demoSnapshot 2 0 1 false (by decide) (by decide)⟩

/-- C8: for a registered label on a commit-successful preview with a
trace covering every registered id, output_buckets returns, per id in
registration order, the Put entries at that position in order, with the
non-deposit entries excluded. -/
theorem c8_output_buckets_puts (r : Receipt) (label : String) (ids : List Nat)
    (wc : List (Nat × List WorktopChange))
    (hids : lookupKV r.instruction_ids_by_label label = some ids)
    (hout : r.preview_receipt.outcome = TxOutcome.commitSuccess)
    (htr : r.preview_receipt.execution_trace = some wc)
    (hall : ∀ id ∈ ids, (lookupKV wc id).isSome) :
    Receipt.output_buckets r label
      = Except.ok (ids.map fun id =>
          (((lookupKV wc id).getD []).filter WorktopChange.isPut).map WorktopChange.resource) := by
  have h1 : Receipt.instruction_ids r label = Except.ok ids := by
    unfold Receipt.instruction_ids
    rw [hids]
  have h2 : TransactionReceipt.expect_commit_success r.preview_receipt = Except.ok () := by
    unfold TransactionReceipt.expect_commit_success
    rw [hout]
    rfl
  unfold Receipt.output_buckets
  rw [h1]
  show TransactionReceipt.output_buckets r.preview_receipt ids = _
  unfold TransactionReceipt.output_buckets
  rw [h2, htr]
  show List.mapM _ ids = _
  clear h1 hids
  induction ids with
  | nil => rfl
  | cons a as ih =>
      obtain ⟨cs, hcs⟩ := Option.isSome_iff_exists.mp (hall a (List.mem_cons_self a as))
      rw [List.mapM_cons, ih (fun id hid => hall id (List.mem_cons_of_mem a hid))]
      simp only [hcs, List.map_cons, Option.getD_some]
      show Except.ok _ = Except.ok _
      rw [filterMap_put_eq]

theorem c8_output_buckets_puts_witness :
    lookupKV demoReceiptLabelled.instruction_ids_by_label "swap" = some [1]
    ∧ demoReceiptLabelled.preview_receipt.outcome = TxOutcome.commitSuccess
    ∧ demoReceiptLabelled.preview_receipt.execution_trace = some demoTrace
    ∧ (∀ id ∈ [1], (lookupKV demoTrace id).isSome)
    ∧ Receipt.output_buckets demoReceiptLabelled "swap"
      = Except.ok ([1].map fun id =>
          (((lookupKV demoTrace id).getD []).filter WorktopChange.isPut).map
            WorktopChange.resource) :=
  ⟨rfl, rfl, rfl, by decide,
    c8_output_buckets_puts demoReceiptLabelled "swap" [1] demoTrace rfl rfl rfl (by decide)⟩

/-- A successful expect_commit_failure pins the outcome. -/
theorem expect_commit_failure_ok {r : TransactionReceipt} {u : Unit}
    (h : TransactionReceipt.expect_commit_failure r = Except.ok u) :
    r.outcome = TxOutcome.commitFailure := by
  unfold TransactionReceipt.expect_commit_failure at h
  by_cases hc : r.outcome = TxOutcome.commitFailure
  · exact hc
  · rw [if_neg hc] at h
    exact Except.noConfusion h

/-- A successful expect_rejection pins the outcome. -/
theorem expect_rejection_ok {r : TransactionReceipt} {u : Unit}
    (h : TransactionReceipt.expect_rejection r = Except.ok u) :
    r.outcome = TxOutcome.rejected := by
  unfold TransactionReceipt.expect_rejection at h
  by_cases hc : r.outcome = TxOutcome.rejected
  · exact hc
  · rw [if_neg hc] at h
    exact Except.noConfusion h

/-- C10 counterexample: with a simulator whose committing execution
fails while its preview commits, a Receipt obtained from a successful
execute_expect_failure can still be queried by its registered label:
output_buckets answers instead of aborting. -/
theorem c10_counterexample :
    (execute_expect_failure demoOpsFail demoEnvLabelled false).toOption.map
        (fun p => Receipt.output_buckets p.2 "swap")
      = some (Except.ok [[ResourceSpecifier.amount 7 (dec 5)]]) := rfl

/-- C10 (amended): outputs aborts whenever the execution outcome is not
commit-success (on a registered label with at least one id), and
output_buckets aborts whenever the preview outcome is not
commit-success; a Receipt from execute_expect_failure always carries a
commit-failure execution outcome and one from execute_expect_rejection
a rejected execution outcome, so outputs can never be queried on them,
while output_buckets may still answer when the preview committed. -/
theorem c10_query_requires_commit_success {σ τ : Type} (ops : SimOps σ τ)
    (env : TestEnvironment σ) (verbose : Bool) (r : Receipt) (label : String) (ids : List Nat)
    (hids : lookupKV r.instruction_ids_by_label label = some ids) :
    (r.execution_receipt.outcome ≠ TxOutcome.commitSuccess → ids ≠ [] →
        Receipt.outputs r label
          = Except.error (HarnessError.commitOutcomeMismatch TxOutcome.commitSuccess
              r.execution_receipt.outcome))
    ∧ (r.preview_receipt.outcome ≠ TxOutcome.commitSuccess →
        Receipt.output_buckets r label
          = Except.error (HarnessError.commitOutcomeMismatch TxOutcome.commitSuccess
              r.preview_receipt.outcome))
    ∧ (∀ res, execute_expect_failure ops env verbose = Except.ok res →
        res.2.execution_receipt.outcome = TxOutcome.commitFailure)
    ∧ (∀ res, execute_expect_rejection ops env verbose = Except.ok res →
        res.2.execution_receipt.outcome = TxOutcome.rejected) := by
  have h1 : Receipt.instruction_ids r label = Except.ok ids := by
    unfold Receipt.instruction_ids
    rw [hids]
  refine ⟨?_, ?_, ?_, ?_⟩
  · intro hx hne
    have he : TransactionReceipt.expect_commit_success r.execution_receipt
        = Except.error (HarnessError.commitOutcomeMismatch TxOutcome.commitSuccess
            r.execution_receipt.outcome) := by
      unfold TransactionReceipt.expect_commit_success
      rw [if_neg hx]
    cases ids with
    | nil => exact absurd rfl hne
    | cons a as =>
        unfold Receipt.outputs
        rw [h1]
        show TransactionReceipt.outputs r.execution_receipt (a :: as) = _
        unfold TransactionReceipt.outputs
        simp only [he]
        rfl
  · intro hp
    have he : TransactionReceipt.expect_commit_success r.preview_receipt
        = Except.error (HarnessError.commitOutcomeMismatch TxOutcome.commitSuccess
            r.preview_receipt.outcome) := by
      unfold TransactionReceipt.expect_commit_success
      rw [if_neg hp]
    unfold Receipt.output_buckets
    rw [h1]
    show TransactionReceipt.output_buckets r.preview_receipt ids = _
    unfold TransactionReceipt.output_buckets
    rw [he]
    rfl
  · intro res heq
    unfold execute_expect_failure at heq
    obtain ⟨u, hm, hf⟩ := exceptBind_ok heq
    injection hf with h3
    rw [← h3]
    exact expect_commit_failure_ok hm
  · intro res heq
    unfold execute_expect_rejection at heq
    obtain ⟨u, hm, hf⟩ := exceptBind_ok heq
    injection hf with h3
    rw [← h3]
    exact expect_rejection_ok hm

theorem c10_query_requires_commit_success_witness :
    lookupKV demoReceiptFail.instruction_ids_by_label "swap" = some [1]
    ∧ demoReceiptFail.execution_receipt.outcome ≠ TxOutcome.commitSuccess
    ∧ (([1] : List Nat) ≠ [])
    ∧ ((demoReceiptFail.execution_receipt.outcome ≠ TxOutcome.commitSuccess →
          ([1] : List Nat) ≠ [] →
          Receipt.outputs demoReceiptFail "swap"
            = Except.error (HarnessError.commitOutcomeMismatch TxOutcome.commitSuccess
                demoReceiptFail.execution_receipt.outcome))
      ∧ (demoReceiptFail.preview_receipt.outcome ≠ TxOutcome.commitSuccess →
          Receipt.output_buckets demoReceiptFail "swap"
            = Except.error (HarnessError.commitOutcomeMismatch TxOutcome.commitSuccess
                demoReceiptFail.preview_receipt.outcome))
      ∧ (∀ res, execute_expect_failure demoOpsFail demoEnvLabelled false = Except.ok res →
          res.2.execution_receipt.outcome = TxOutcome.commitFailure)
      ∧ (∀ res, execute_expect_rejection demoOpsFail demoEnvLabelled false = Except.ok res →
          res.2.execution_receipt.outcome = TxOutcome.rejected)) :=
  ⟨rfl, by decide, by decide,
    c10_query_requires_commit_success demoOpsFail demoEnvLabelled false demoReceiptFail
      "swap" [1] rfl⟩

/-- C6: with an uncached non-empty canonical set, new resolves (or
builds and caches) the packageless baseline, publishes every requested
package on top of it, caches the snapshot of the result under the
computed set, and returns that environment, which coincides with the
revived copy of the newly inserted snapshot; with a cached set, new
revives and returns the cached snapshot and leaves the caches alone. -/
theorem c6_cache_resolution {σ τ : Type} (ops : SimOps σ τ)
    (hrt : ∀ st, ops.buildFromSnapshot (ops.createSnapshot st) = st)
    (caches : Caches τ) (packages : List (String × String)) :
    (∀ snap, lookupKV caches.test_environment_cache (canonicalDirs packages) = some snap →
        TestEnvironment.new ops caches packages
          = (caches, TestEnvironmentSnapshot.revive ops snap))
    ∧ (packages ≠ [] →
        lookupKV caches.test_environment_cache (canonicalDirs packages) = none →
        (TestEnvironment.new ops caches packages).2
            = (compile_and_publish_packages ops caches.package_cache
                (baseline_environment ops caches) packages).2
          ∧ lookupKV (TestEnvironment.new ops caches packages).1.test_environment_cache
              (canonicalDirs packages)
            = some (TestEnvironment.create_snapshot
                ((TestEnvironment.new ops caches packages).2) ops)
          ∧ (TestEnvironment.new ops caches packages).2
            = TestEnvironmentSnapshot.revive ops
                (TestEnvironment.create_snapshot
                  ((TestEnvironment.new ops caches packages).2) ops)
          ∧ (lookupKV caches.test_environment_cache ([] : List String) = none →
              lookupKV (TestEnvironment.new ops caches packages).1.test_environment_cache
                  ([] : List String)
                = some (TestEnvironment.create_snapshot
                    (generate_new_test_environment ops) ops))) := by
  constructor
  · intro snap hsnap
    unfold TestEnvironment.new
    simp only [get_cache_test_environment, hsnap]
  · intro hne hmiss
    have hempty : packages.isEmpty = false := by
      cases packages with
      | nil => exact absurd rfl hne
      | cons p rest => rfl
    have hdirs : canonicalDirs packages ≠ [] := canonicalDirs_ne_nil packages hne
    cases h0 : lookupKV caches.test_environment_cache ([] : List String) with
    | some snap0 =>
        have hbase : baseline_environment ops caches = TestEnvironmentSnapshot.revive ops snap0 := by
          unfold baseline_environment get_cache_test_environment
          rw [h0]
        have hnew : TestEnvironment.new ops caches packages
            = ({ test_environment_cache :=
                  write_cache caches.test_environment_cache (canonicalDirs packages)
                    (TestEnvironment.create_snapshot
                      (compile_and_publish_packages ops caches.package_cache
                        (TestEnvironmentSnapshot.revive ops snap0) packages).2 ops),
                 package_cache :=
                  (compile_and_publish_packages ops caches.package_cache
                    (TestEnvironmentSnapshot.revive ops snap0) packages).1 },
               (compile_and_publish_packages ops caches.package_cache
                 (TestEnvironmentSnapshot.revive ops snap0) packages).2) := by
          unfold TestEnvironment.new
          simp only [get_cache_test_environment, hmiss, h0, hempty, Bool.false_eq_true,
            if_false]
        refine ⟨?_, ?_, ?_, ?_⟩
        · rw [hnew, hbase]
        · rw [hnew]
          exact lookupKV_write_cache_self caches.test_environment_cache
            (canonicalDirs packages) _ hmiss
        · rw [hnew]
          exact (revive_create_snapshot ops hrt _ rfl rfl rfl).symm
        · intro h0x
          exact Option.noConfusion h0x
    | none =>
        have hbase : baseline_environment ops caches = generate_new_test_environment ops := by
          unfold baseline_environment get_cache_test_environment
          rw [h0]
        have hnew : TestEnvironment.new ops caches packages
            = ({ test_environment_cache :=
                  write_cache
                    (write_cache caches.test_environment_cache []
                      (TestEnvironment.create_snapshot (generate_new_test_environment ops) ops))
                    (canonicalDirs packages)
                    (TestEnvironment.create_snapshot
                      (compile_and_publish_packages ops caches.package_cache
                        (generate_new_test_environment ops) packages).2 ops),
                 package_cache :=
                  (compile_and_publish_packages ops caches.package_cache
                    (generate_new_test_environment ops) packages).1 },
               (compile_and_publish_packages ops caches.package_cache
                 (generate_new_test_environment ops) packages).2) := by
          unfold TestEnvironment.new
          simp only [get_cache_test_environment, hmiss, h0, hempty, Bool.false_eq_true,
            if_false]
        have hmiss2 : lookupKV
            (write_cache caches.test_environment_cache []
              (TestEnvironment.create_snapshot (generate_new_test_environment ops) ops))
            (canonicalDirs packages) = none := by
          rw [lookupKV_write_cache_ne caches.test_environment_cache [] (canonicalDirs packages)
            _ hdirs]
          exact hmiss
        refine ⟨?_, ?_, ?_, ?_⟩
        · rw [hnew, hbase]
        · rw [hnew]
          exact lookupKV_write_cache_self _ (canonicalDirs packages) _ hmiss2
        · rw [hnew]
          exact (revive_create_snapshot ops hrt _ rfl rfl rfl).symm
        · intro _
          rw [hnew]
          have hne2 : ([] : List String) ≠ canonicalDirs packages :=
            fun e => hdirs (Eq.symm e)
          rw [lookupKV_write_cache_ne _ (canonicalDirs packages) ([] : List String) _ hne2]
          exact lookupKV_write_cache_self caches.test_environment_cache [] _ h0

theorem c6_cache_resolution_witness :
    (∀ st : Nat, demoOps.buildFromSnapshot (demoOps.createSnapshot st) = st)
    ∧ ([(("hello" : String), ("pkgdir" : String))] ≠ [])
    ∧ lookupKV cachesEmpty.test_environment_cache (canonicalDirs [("hello", "pkgdir")]) = none
    ∧ ((∀ snap, lookupKV cachesEmpty.test_environment_cache
          (canonicalDirs [("hello", "pkgdir")]) = some snap →
          TestEnvironment.new demoOps cachesEmpty [("hello", "pkgdir")]
            = (cachesEmpty, TestEnvironmentSnapshot.revive demoOps snap))
      ∧ ([(("hello" : String), ("pkgdir" : String))] ≠ [] →
          lookupKV cachesEmpty.test_environment_cache
            (canonicalDirs [("hello", "pkgdir")]) = none →
          (TestEnvironment.new demoOps cachesEmpty [("hello", "pkgdir")]).2
              = (compile_and_publish_packages demoOps cachesEmpty.package_cache
                  (baseline_environment demoOps cachesEmpty) [("hello", "pkgdir")]).2
            ∧ lookupKV (TestEnvironment.new demoOps cachesEmpty
                  [("hello", "pkgdir")]).1.test_environment_cache
                (canonicalDirs [("hello", "pkgdir")])
              = some (TestEnvironment.create_snapshot
                  ((TestEnvironment.new demoOps cachesEmpty [("hello", "pkgdir")]).2) demoOps)
            ∧ (TestEnvironment.new demoOps cachesEmpty [("hello", "pkgdir")]).2
              = TestEnvironmentSnapshot.revive demoOps
                  (TestEnvironment.create_snapshot
                    ((TestEnvironment.new demoOps cachesEmpty [("hello", "pkgdir")]).2) demoOps)
            ∧ (lookupKV cachesEmpty.test_environment_cache ([] : List String) = none →
                lookupKV (TestEnvironment.new demoOps cachesEmpty
                    [("hello", "pkgdir")]).1.test_environment_cache ([] : List String)
                  = some (TestEnvironment.create_snapshot
                      (generate_new_test_environment demoOps) demoOps)))) :=
  ⟨fun _ => rfl, by decide, rfl,
    c6_cache_resolution demoOps (fun _ => rfl) cachesEmpty [("hello", "pkgdir")]⟩

end Testenv
